import Mathlib

/-!
# TToolbox invocation pipeline and interactive-state registries

A shallow embedding of the TToolbox Discord-framework core (command dispatch,
cooldown tracking, permission resolution, pagination sessions, modal registry)
together with theorems checking the specified behaviour against the code.

JavaScript `Map<string, V>` values are modelled extensionally as lookup
functions `String → Option V` (a JS map has unique keys, so the extensional
view is exact); `Date.now()` timestamps are explicit `Nat`/`Int` parameters;
`async` functions that may `throw` are modelled with `Except`/`Option`
results; external collaborators (the platform reply primitive, caller-supplied
handlers) are oracle parameters.
-/

namespace TToolbox

/-- A JavaScript `Map<string, α>` viewed extensionally: `get` returning
`undefined` is `none`. -/
abbrev JsMap (α : Type) : Type := String → Option α

namespace JsMap

/-- `new Map()`. -/
def empty {α : Type} : JsMap α := fun _ => none

/-- `map.set(k, v)`. -/
def set {α : Type} (m : JsMap α) (k : String) (v : α) : JsMap α :=
  fun q => if q = k then some v else m q

/-- `map.delete(k)` (the resulting map; the source's boolean result is
`(m k).isSome`). -/
def del {α : Type} (m : JsMap α) (k : String) : JsMap α :=
  fun q => if q = k then none else m q

theorem get_set_self {α : Type} (m : JsMap α) (k : String) (v : α) :
    set m k v k = some v := by
  simp [set]

theorem get_set_other {α : Type} (m : JsMap α) (k q : String) (v : α)
    (h : q ≠ k) : set m k v q = m q := by
  simp [set, h]

end JsMap

/-! ## Cooldown tracker (`src/utils/cooldown.ts`) -/

/-- The inner map of the tracker: `userId ↦ canBeUsedAgainAt` (the ms
timestamp at which the command may be used again). -/
abbrev CooldownMap : Type := JsMap Nat

/-- `const tracker: Map<commandName, Map<userId, canBeUsedAgainAt>>`. -/
abbrev CooldownTracker : Type := JsMap (String → Option Nat)

/-- The cleanup loop in `checkCooldown`: every entry whose expiry has passed
(`expiry <= now`) is deleted from the command's map. -/
def purgeExpired (cooldownMap : CooldownMap) (now : Nat) : CooldownMap :=
  fun id =>
    match cooldownMap id with
    | some expiry => if expiry ≤ now then none else some expiry
    | none => none

/-- `checkCooldown(commandName, commandCooldown, userId)` from
`src/utils/cooldown.ts`, with `Date.now()` passed explicitly as `now` and the
module-level `tracker` threaded as explicit state.  Returns the wait that the
source returns together with the tracker after the call.  `!commandCooldown`
is true in JS both for `undefined` and for `0`, and the truthiness test
`canBeUsedAgainAt && now < canBeUsedAgainAt` is `canBeUsedAgainAt ≠ 0 ∧ _`. -/
def checkCooldown (commandName : String) (commandCooldown : Option Nat)
    (userId : String) (now : Nat) (tracker : CooldownTracker) :
    Nat × CooldownTracker :=
  match commandCooldown with
  | none => (0, tracker)
  | some c =>
    if c = 0 then (0, tracker)
    else
      let cooldownMap0 := (tracker commandName).getD JsMap.empty
      let cooldownMap := purgeExpired cooldownMap0 now
      match cooldownMap userId with
      | some canBeUsedAgainAt =>
        if canBeUsedAgainAt ≠ 0 ∧ now < canBeUsedAgainAt then
          (canBeUsedAgainAt - now, JsMap.set tracker commandName cooldownMap)
        else
          (0, JsMap.set tracker commandName
            (JsMap.set cooldownMap userId (now + c)))
      | none =>
        (0, JsMap.set tracker commandName
          (JsMap.set cooldownMap userId (now + c)))

/-- The cooldown entry currently stored for `(commandName, userId)`. -/
def cooldownEntry (tracker : CooldownTracker) (commandName userId : String) :
    Option Nat :=
  ((tracker commandName).getD JsMap.empty) userId

theorem purgeExpired_unexpired (m : CooldownMap) (now : Nat) (u : String)
    (e : Nat) (he : m u = some e) (hlt : now < e) :
    purgeExpired m now u = some e := by
  simp only [purgeExpired, he]
  exact if_neg (by omega)

theorem purgeExpired_none_of_expired (m : CooldownMap) (now : Nat)
    (u : String) (h : ∀ e, m u = some e → e ≤ now) :
    purgeExpired m now u = none := by
  simp only [purgeExpired]
  cases hm : m u with
  | none => rfl
  | some e => exact if_pos (h e hm)

theorem checkCooldown_fst_eq_zero (cmd u : String) (D now : Nat)
    (tr : CooldownTracker) (hc : ¬ D = 0)
    (hexp : ∀ e, cooldownEntry tr cmd u = some e → e ≤ now) :
    (checkCooldown cmd (some D) u now tr).1 = 0 := by
  have hpu : purgeExpired ((tr cmd).getD JsMap.empty) now u = none :=
    purgeExpired_none_of_expired _ now u hexp
  simp only [checkCooldown, if_neg hc, hpu]

/-- **C1.** For a command with cooldown duration `D > 0` and any user: a call
made while the user holds an unexpired entry returns exactly the remaining
time (positive, and at most `D` whenever the entry was written as
`grantTime + D` with `grantTime ≤ now`) and leaves that user's entry
untouched; a call made with no unexpired entry returns `0` and writes
`now + D`; consequently a call made `D` or more after a grant is granted
again. -/
theorem checkCooldown_spec (cmd u : String) (D now : Nat)
    (tr : CooldownTracker) (hD : 0 < D) :
    (∀ e, cooldownEntry tr cmd u = some e → now < e →
      (checkCooldown cmd (some D) u now tr).1 = e - now ∧
      0 < (checkCooldown cmd (some D) u now tr).1 ∧
      (e ≤ now + D → (checkCooldown cmd (some D) u now tr).1 ≤ D) ∧
      cooldownEntry (checkCooldown cmd (some D) u now tr).2 cmd u = some e) ∧
    ((∀ e, cooldownEntry tr cmd u = some e → e ≤ now) →
      (checkCooldown cmd (some D) u now tr).1 = 0 ∧
      cooldownEntry (checkCooldown cmd (some D) u now tr).2 cmd u
        = some (now + D)) ∧
    ((∀ e, cooldownEntry tr cmd u = some e → e ≤ now) →
      ∀ later, now + D ≤ later →
      (checkCooldown cmd (some D) u later
        (checkCooldown cmd (some D) u now tr).2).1 = 0) := by
  have hc : ¬ D = 0 := by omega
  refine ⟨?_, ?_, ?_⟩
  · intro e he hlt
    have hpu : purgeExpired ((tr cmd).getD JsMap.empty) now u = some e :=
      purgeExpired_unexpired _ now u e he hlt
    have hres : checkCooldown cmd (some D) u now tr
        = (e - now, JsMap.set tr cmd
            (purgeExpired ((tr cmd).getD JsMap.empty) now)) := by
      simp only [checkCooldown, if_neg hc, hpu]
      rw [if_pos ⟨by omega, hlt⟩]
    rw [hres]
    refine ⟨rfl, by omega, fun hle => by omega, ?_⟩
    simp only [cooldownEntry, JsMap.get_set_self, Option.getD_some]
    exact hpu
  · intro hexp
    have hpu : purgeExpired ((tr cmd).getD JsMap.empty) now u = none :=
      purgeExpired_none_of_expired _ now u hexp
    have hres : checkCooldown cmd (some D) u now tr
        = (0, JsMap.set tr cmd
            (JsMap.set (purgeExpired ((tr cmd).getD JsMap.empty) now) u
              (now + D))) := by
      simp only [checkCooldown, if_neg hc, hpu]
    rw [hres]
    refine ⟨rfl, ?_⟩
    simp only [cooldownEntry, JsMap.get_set_self, Option.getD_some]
  · intro hexp later hlater
    have hpu : purgeExpired ((tr cmd).getD JsMap.empty) now u = none :=
      purgeExpired_none_of_expired _ now u hexp
    have hres : checkCooldown cmd (some D) u now tr
        = (0, JsMap.set tr cmd
            (JsMap.set (purgeExpired ((tr cmd).getD JsMap.empty) now) u
              (now + D))) := by
      simp only [checkCooldown, if_neg hc, hpu]
    have hentry : cooldownEntry
        (JsMap.set tr cmd
          (JsMap.set (purgeExpired ((tr cmd).getD JsMap.empty) now) u
            (now + D))) cmd u = some (now + D) := by
      simp only [cooldownEntry, JsMap.get_set_self, Option.getD_some]
    have h2 : (checkCooldown cmd (some D) u now tr).2
        = JsMap.set tr cmd
            (JsMap.set (purgeExpired ((tr cmd).getD JsMap.empty) now) u
              (now + D)) := congrArg Prod.snd hres
    rw [h2]
    refine checkCooldown_fst_eq_zero cmd u D later _ hc ?_
    intro e hme
    rw [hentry] at hme
    injection hme with h
    omega

/-- Witness for `checkCooldown_spec`: the concrete scenario of the spec
(`D = 5000`, user `U1`, empty tracker).  The first call grants and writes
`5000`; a retry at `now = 1000` is denied with remaining `4000`; a retry at
`now = 5000` is granted. -/
theorem checkCooldown_spec_witness :
    (0 : Nat) < 5000 ∧
    (checkCooldown "slow" (some 5000) "U1" 1000
      (checkCooldown "slow" (some 5000) "U1" 0 JsMap.empty).2).1 = 4000 ∧
    (checkCooldown "slow" (some 5000) "U1" 5000
      (checkCooldown "slow" (some 5000) "U1" 0 JsMap.empty).2).1 = 0 := by
  have h0 := checkCooldown_spec "slow" "U1" 5000 0 JsMap.empty (by omega)
  have hgrant := h0.2.1 (fun e he => by simp [cooldownEntry, JsMap.empty] at he)
  have h1 := checkCooldown_spec "slow" "U1" 5000 1000
    (checkCooldown "slow" (some 5000) "U1" 0 JsMap.empty).2 (by omega)
  have hdenied := (h1.1 5000 hgrant.2 (by omega)).1
  have hwait := h0.2.2 (fun e he => by simp [cooldownEntry, JsMap.empty] at he)
    5000 (by omega)
  exact ⟨by omega, by rw [hdenied], hwait⟩

/-! ## Modal registry (`src/classes/ModalManager.ts`, `src/types/modal.ts`) -/

/-- `TextInputStyle` of the platform API. -/
inductive TextInputStyle
  | short
  | paragraph
deriving DecidableEq

/-- `ModalField` from `src/types/modal.ts` (pure data). -/
structure ModalField where
  name : String
  style : TextInputStyle
  customId : String
  placeholder : Option String := none
  minLength : Option Nat := none
  maxLength : Option Nat := none
  value : Option String := none
deriving DecidableEq

/-- `Modal` from `src/types/modal.ts`.  The `onSubmit` handler is external
caller code; its outcome for a given invocation is the `submitResult` oracle
parameter of `ModalManager.handleSubmit`. -/
structure Modal where
  id : String
  ephemeral : Bool
  title : String
  fields : List ModalField
deriving DecidableEq

namespace ModalManager

/-- `id.split(':')[0]` — the part of `id` before the first `':'` (the whole
id when there is no `':'`). -/
def baseId (id : String) : String :=
  String.mk (id.toList.takeWhile (fun c => c ≠ ':'))

/-- The registry mutation of `buildAndRegister`: `this.modals.set(data.id,
data)` (the returned `ModalBuilder` is platform UI data, not registry
state). -/
def buildAndRegister (modals : JsMap Modal) (data : Modal) : JsMap Modal :=
  JsMap.set modals data.id data

/-- `ModalManager.get`: try the exact id first; if absent, retry with the
base id before the first colon. -/
def get (modals : JsMap Modal) (id : String) : Option Modal :=
  match modals id with
  | some modal => some modal
  | none => modals (baseId id)

/-- `ModalManager.remove`: `this.modals.delete(id)`. -/
def remove (modals : JsMap Modal) (id : String) : JsMap Modal :=
  JsMap.del modals id

/-- `ModalManager.handleSubmit`: look the modal up by the interaction's
`customId` (throw — modelled `.error` — when nothing matches), await the
modal's `onSubmit` (outcome given by the `submitResult` oracle; a thrown
handler error propagates before any cleanup), then, iff the modal is
ephemeral, `this.remove(interaction.customId)` — the removal uses the full
submission id, not the key the modal is stored under. -/
def handleSubmit (modals : JsMap Modal) (customId : String)
    (submitResult : Except String Unit) : Except String (JsMap Modal) :=
  match get modals customId with
  | none => Except.error ("Modal not found: " ++ customId)
  | some modal =>
    match submitResult with
    | Except.error e => Except.error e
    | Except.ok _ =>
      if modal.ephemeral then Except.ok (remove modals customId)
      else Except.ok modals

end ModalManager

/-- The ephemeral modal definition of the `C2`/`C6` scenarios, registered
under the key `"edit-x"`. -/
def editModal : Modal :=
  { id := "edit-x", ephemeral := true, title := "Edit", fields := [] }

/-- **C6.** Modal lookup tries the exact key first and only on failure
retries with the id's part before the first colon: an exact hit is returned
as is; on an exact miss the lookup equals the base-id lookup; after
registering a definition under `"edit-x"`, looking up `"edit-x:42"` gives
the same result as looking up `"edit-x"`, namely that definition; an id
matching neither exactly nor by base id is not found. -/
theorem modalManager_get_spec :
    (∀ (modals : JsMap Modal) (id : String) (m : Modal),
      modals id = some m → ModalManager.get modals id = some m) ∧
    (∀ (modals : JsMap Modal) (id : String),
      modals id = none →
      ModalManager.get modals id = modals (ModalManager.baseId id)) ∧
    (∀ d : Modal, d.id = "edit-x" →
      ModalManager.get (ModalManager.buildAndRegister JsMap.empty d)
          "edit-x:42"
        = ModalManager.get (ModalManager.buildAndRegister JsMap.empty d)
          "edit-x" ∧
      ModalManager.get (ModalManager.buildAndRegister JsMap.empty d)
          "edit-x:42" = some d) ∧
    (∀ (modals : JsMap Modal) (id : String),
      modals id = none → modals (ModalManager.baseId id) = none →
      ModalManager.get modals id = none) := by
  refine ⟨?_, ?_, ?_, ?_⟩
  · intro modals id m h
    simp [ModalManager.get, h]
  · intro modals id h
    simp [ModalManager.get, h]
  · intro d hd
    have hb : ModalManager.baseId "edit-x:42" = "edit-x" := by decide
    have h1 : ModalManager.buildAndRegister JsMap.empty d "edit-x:42"
        = none := by
      simp only [ModalManager.buildAndRegister, JsMap.set, hd]
      rw [if_neg (by decide)]
      rfl
    have h2 : ModalManager.buildAndRegister JsMap.empty d "edit-x"
        = some d := by
      simp [ModalManager.buildAndRegister, JsMap.set, hd]
    constructor
    · simp [ModalManager.get, h1, h2, hb]
    · simp [ModalManager.get, h1, hb, h2]
  · intro modals id h1 h2
    simp [ModalManager.get, h1, h2]

/-- Witness for `modalManager_get_spec` at concrete inputs. -/
theorem modalManager_get_spec_witness :
    ((ModalManager.buildAndRegister JsMap.empty editModal) "edit-x"
        = some editModal ∧
      ModalManager.get (ModalManager.buildAndRegister JsMap.empty editModal)
        "edit-x" = some editModal) ∧
    (JsMap.empty (α := Modal) "zzz" = none ∧
      ModalManager.get JsMap.empty "zzz"
        = JsMap.empty (ModalManager.baseId "zzz")) ∧
    (editModal.id = "edit-x" ∧
      ModalManager.get (ModalManager.buildAndRegister JsMap.empty editModal)
        "edit-x:42" = some editModal) ∧
    (ModalManager.get JsMap.empty "zzz" = none) := by
  have h := modalManager_get_spec
  refine ⟨⟨by decide, ?_⟩, ⟨rfl, ?_⟩, ⟨rfl, ?_⟩, ?_⟩
  · exact h.1 _ "edit-x" editModal (by decide)
  · exact h.2.1 _ "zzz" rfl
  · exact (h.2.2.1 editModal rfl).2
  · exact h.2.2.2 _ "zzz" rfl rfl

/-- **C2.** The claim says one successful ephemeral `handleSubmit` makes a
second submission with the same id fail not-found.  The code removes the
modal under the full submission id, so a submission matched through the
suffix fallback never removes the stored definition: with the ephemeral
definition registered under `"edit-x"`, a first `handleSubmit` for
`"edit-x:42"` succeeds, the definition is still retrievable afterwards, and
a second `handleSubmit` for `"edit-x:42"` succeeds as well — contradicting
both the claim and the code's own documentation of ephemeral cleanup. -/
theorem handleSubmit_ephemeral_suffix_not_removed :
    ((ModalManager.handleSubmit
        (ModalManager.buildAndRegister JsMap.empty editModal) "edit-x:42"
        (Except.ok ())).toOption.map
      (fun modals2 =>
        (ModalManager.get modals2 "edit-x:42",
          (ModalManager.handleSubmit modals2 "edit-x:42"
            (Except.ok ())).toOption.isSome)))
      = some (some editModal, true) := by decide

/-! ## Permission resolver (`src/utils/permissions.ts`,
`src/types/permission.ts`) -/

/-- A representative closed set of the platform's named permission flags with
their `PermissionFlagsBits` bit values. -/
inductive PermissionFlagName
  | createInstantInvite
  | kickMembers
  | banMembers
  | administrator
  | manageChannels
  | manageGuild
  | addReactions
  | viewAuditLog
deriving DecidableEq

/-- The `PermissionFlagsBits` value of a named flag. -/
def PermissionFlagName.bit : PermissionFlagName → Nat
  | .createInstantInvite => 1
  | .kickMembers => 2
  | .banMembers => 4
  | .administrator => 8
  | .manageChannels => 16
  | .manageGuild => 32
  | .addReactions => 64
  | .viewAuditLog => 128

/-- `PermissionLevel` from `src/types/permission.ts`: `'admin' | 'owner' |
'disabled' | 'user' | null | undefined | bigint | number | (keyof typeof
PermissionFlagsBits)[]`.  A JS `number` used as a bitmask is modelled as an
integer. -/
inductive PermissionLevel
  | admin
  | owner
  | disabled
  | user
  | nullLevel
  | undefinedLevel
  | bigintVal (v : Int)
  | numberVal (v : Int)
  | flagList (flags : List PermissionFlagName)
deriving DecidableEq

/-- `new PermissionsBitField(level).bitfield`: the bitwise OR of the named
flags. -/
def permissionsBitField (flags : List PermissionFlagName) : Nat :=
  flags.foldl (fun acc f => acc ||| f.bit) 0

/-- `getPermissionsForLevel` from `src/utils/permissions.ts`; the `null`
result (unrestricted) is `none`. -/
def getPermissionsForLevel : PermissionLevel → Option Int
  | .admin => some ((PermissionFlagName.administrator.bit : Nat) : Int)
  | .owner => some 0
  | .disabled => some 0
  | .bigintVal v => some v
  | .numberVal v => some v
  | .flagList flags => some ((permissionsBitField flags : Nat) : Int)
  | _ => none

/-- **C7.** Permission resolution is a pure total deterministic function on
the closed variant: `admin` maps to the administrator bit (8), `owner` and
`disabled` map to 0, raw numeric values pass through unchanged, a named-flag
list maps to the bitwise OR of the named flags, and every other value maps
to `null` — it is defined (never fails) on every variant value. -/
theorem getPermissionsForLevel_spec :
    getPermissionsForLevel .admin
      = some ((PermissionFlagName.administrator.bit : Nat) : Int) ∧
    getPermissionsForLevel .admin = some 8 ∧
    getPermissionsForLevel .owner = some 0 ∧
    getPermissionsForLevel .disabled = some 0 ∧
    (∀ v : Int, getPermissionsForLevel (.bigintVal v) = some v) ∧
    (∀ v : Int, getPermissionsForLevel (.numberVal v) = some v) ∧
    (∀ flags, getPermissionsForLevel (.flagList flags)
      = some ((permissionsBitField flags : Nat) : Int)) ∧
    getPermissionsForLevel
      (.flagList [.kickMembers, .banMembers]) = some 6 ∧
    (∀ level, getPermissionsForLevel level = none ↔
      (level = .user ∨ level = .nullLevel ∨ level = .undefinedLevel)) := by
  refine ⟨rfl, by decide, rfl, rfl, fun v => rfl, fun v => rfl,
    fun flags => rfl, by decide, ?_⟩
  intro level
  cases level <;> simp [getPermissionsForLevel]

/-- **C10.** The public level `'user'` — absent from the spec's closed
variant — resolves exactly like an absent requirement (`null`/`undefined`):
to `null`, i.e. no default restriction in the exported descriptor. -/
theorem getPermissionsForLevel_user_unrestricted :
    getPermissionsForLevel .user = none ∧
    getPermissionsForLevel .nullLevel = none ∧
    getPermissionsForLevel .undefinedLevel = none ∧
    getPermissionsForLevel .user = getPermissionsForLevel .nullLevel ∧
    getPermissionsForLevel .user = getPermissionsForLevel .undefinedLevel :=
  ⟨rfl, rfl, rfl, rfl, rfl⟩

/-! ## Paginated browser (`src/utils/PaginatedEmbed.class.ts`) -/

/-- The value the caller-supplied `onCustomButton` handler resolves with
(`stopCollector` being `undefined` is falsy, hence the `false` default). -/
structure CustomButtonResult (T : Type) where
  handled : Bool
  newItems : Option (List T) := none
  stopCollector : Bool := false

/-- Whether a session's component collector is still live. -/
inductive SessionStatus
  | active
  | ended
deriving DecidableEq

/-- The mutable state of one `PaginatedEmbed` session: current index (a JS
number — `Math.min(this.index, this.items.length - 1)` can reach `-1`, so it
is an `Int`), the item list, and the collector status. -/
structure PaginatedSession (T : Type) where
  index : Int
  items : List T
  status : SessionStatus

/-- The session state right after `start()` replied and attached the
collector: the constructor's `index = 0` and items, live collector. -/
def PaginatedSession.start {T : Type} (items : List T) : PaginatedSession T :=
  { index := 0, items := items, status := SessionStatus.active }

/-- The `switch (action)` pagination branch of the collect handler: `prev`
clamps with `Math.max(0, index - 1)`, `next` with
`Math.min(items.length - 1, index + 1)`, any other id returns without
changes. -/
def paginationSwitch {T : Type} (s : PaginatedSession T) (action : String) :
    PaginatedSession T :=
  if action = "prev" then { s with index := max 0 (s.index - 1) }
  else if action = "next" then
    { s with index := min ((s.items.length : Int) - 1) (s.index + 1) }
  else s

/-- One `collect` event of the button collector in `start()`: an ended
collector emits nothing; a click by anyone but the session owner only gets a
private rejection reply; otherwise the custom-button handler (when
configured) runs first, and a handled click applies the optional replacement
list — stopping the session when the replacement is empty or
`stopCollector` is set, both checked only inside the
`if (result.newItems)` branch — while an unhandled click falls through to
the pagination switch. -/
def collectStep {T : Type} (s : PaginatedSession T)
    (clickerId ownerId : String) (action : String)
    (onCustomButton : Option (String → Int → List T → CustomButtonResult T)) :
    PaginatedSession T :=
  if s.status = SessionStatus.ended then s
  else if clickerId ≠ ownerId then s
  else
    match onCustomButton with
    | some handler =>
      let result := handler action s.index s.items
      if result.handled then
        match result.newItems with
        | some newItems =>
          let s1 : PaginatedSession T :=
            { s with
                items := newItems
                index := min s.index ((newItems.length : Int) - 1) }
          if newItems.length = 0 ∨ result.stopCollector then
            { s1 with status := SessionStatus.ended }
          else s1
        | none => s
      else paginationSwitch s action
    | none => paginationSwitch s action

theorem paginationSwitch_bounds {T : Type} (s : PaginatedSession T)
    (action : String) (h0 : 0 ≤ s.index)
    (hHi : s.index ≤ (s.items.length : Int) - 1) :
    0 ≤ (paginationSwitch s action).index ∧
    (paginationSwitch s action).index
      ≤ ((paginationSwitch s action).items.length : Int) - 1 ∧
    (paginationSwitch s action).items = s.items ∧
    (paginationSwitch s action).status = s.status := by
  unfold paginationSwitch
  split_ifs <;> simp <;> omega

/-- **C5.** A live session over a non-empty list keeps its index inside
`[0, items.length − 1]`: it starts at `0`; a step that leaves the session
live and its list non-empty preserves the bounds; a `prev` click at index
`0` and a `next` click at the last index change nothing; and a replacement
by the empty list ends the session. -/
theorem paginatedEmbed_index_invariant {T : Type} (s : PaginatedSession T)
    (clickerId ownerId action : String)
    (onCustomButton : Option (String → Int → List T → CustomButtonResult T))
    (hAlive : s.status = SessionStatus.active) (h0 : 0 ≤ s.index)
    (hHi : s.index ≤ (s.items.length : Int) - 1) (hNe : s.items ≠ []) :
    (∀ items : List T, (PaginatedSession.start items).index = 0 ∧
      (PaginatedSession.start items).status = SessionStatus.active) ∧
    ((collectStep s clickerId ownerId action onCustomButton).status
        = SessionStatus.active →
      0 ≤ (collectStep s clickerId ownerId action onCustomButton).index ∧
      (collectStep s clickerId ownerId action onCustomButton).index
        ≤ ((collectStep s clickerId ownerId action
            onCustomButton).items.length : Int) - 1 ∧
      (collectStep s clickerId ownerId action onCustomButton).items ≠ []) ∧
    (s.index = 0 → collectStep s clickerId ownerId "prev" none = s) ∧
    (s.index = (s.items.length : Int) - 1 →
      (collectStep s clickerId ownerId "next" none).index = s.index) ∧
    (∀ handler, onCustomButton = some handler →
      (handler action s.index s.items).handled = true →
      (handler action s.index s.items).newItems = some [] →
      (collectStep s ownerId ownerId action onCustomButton).status
        = SessionStatus.ended) := by
  have hlen : 1 ≤ s.items.length := List.length_pos.mpr hNe
  have hne_end : ¬ s.status = SessionStatus.ended := by
    rw [hAlive]; intro h; cases h
  refine ⟨fun items => ⟨rfl, rfl⟩, ?_, ?_, ?_, ?_⟩
  · intro halive
    by_cases hclick : clickerId ≠ ownerId
    · simp only [collectStep, if_neg hne_end, if_pos hclick]
      exact ⟨h0, hHi, hNe⟩
    · cases onCustomButton with
      | none =>
        simp only [collectStep, if_neg hne_end, if_neg hclick]
        have hb := paginationSwitch_bounds s action h0 hHi
        exact ⟨hb.1, hb.2.1, hb.2.2.1 ▸ hNe⟩
      | some handler =>
        simp only [collectStep, if_neg hne_end, if_neg hclick] at halive ⊢
        by_cases hh : (handler action s.index s.items).handled = true
        · simp only [hh, if_true] at halive ⊢
          cases hni : (handler action s.index s.items).newItems with
          | none =>
            simp only [hni] at halive ⊢
            exact ⟨h0, hHi, hNe⟩
          | some newItems =>
            simp only [hni] at halive ⊢
            by_cases hstop : newItems.length = 0 ∨
                (handler action s.index s.items).stopCollector = true
            · rw [if_pos hstop] at halive
              cases halive
            · rw [if_neg hstop] at halive ⊢
              have hpos : 1 ≤ newItems.length := by
                rcases Nat.eq_zero_or_pos newItems.length with h | h
                · exact absurd (Or.inl h) hstop
                · exact h
              refine ⟨?_, ?_, ?_⟩
              · simp only []
                omega
              · simp only []
                omega
              · simp only []
                intro hcon
                rw [hcon] at hpos
                simp at hpos
        · simp only [eq_false_of_ne_true (fun h => hh h), if_false]
            at halive ⊢
          have hb := paginationSwitch_bounds s action h0 hHi
          exact ⟨hb.1, hb.2.1, hb.2.2.1 ▸ hNe⟩
  · intro hz
    by_cases hclick : clickerId ≠ ownerId
    · simp only [collectStep, if_neg hne_end, if_pos hclick]
    · simp only [collectStep, if_neg hne_end, if_neg hclick,
        paginationSwitch, if_pos rfl]
      cases s with
      | mk i it st =>
        simp only at hz
        subst hz
        simp
  · intro hlast
    by_cases hclick : clickerId ≠ ownerId
    · simp only [collectStep, if_neg hne_end, if_pos hclick]
    · have hprev : ¬ ("next" : String) = "prev" := by decide
      simp only [collectStep, if_neg hne_end, if_neg hclick,
        paginationSwitch, if_neg hprev, if_pos rfl, eq_self_iff_true,
        if_true]
      omega
  · intro handler hsome hh hni
    subst hsome
    have hclick : ¬ ownerId ≠ ownerId := fun h => h rfl
    simp only [collectStep, if_neg hne_end, if_neg hclick, hh, if_true,
      hni]
    simp

/-- Witness for `paginatedEmbed_index_invariant`: the spec's scenario of a
three-item session at index `0`, owner clicking `next`. -/
theorem paginatedEmbed_index_invariant_witness :
    (PaginatedSession.start (T := String) ["a", "b", "c"]).status
      = SessionStatus.active ∧
    ((0 : Int) ≤ (PaginatedSession.start (T := String) ["a", "b", "c"]).index
      ∧ (PaginatedSession.start (T := String) ["a", "b", "c"]).index
        ≤ (((PaginatedSession.start (T := String)
            ["a", "b", "c"]).items.length : Int) - 1)
      ∧ (PaginatedSession.start (T := String) ["a", "b", "c"]).items ≠ []) ∧
    ((collectStep (PaginatedSession.start (T := String) ["a", "b", "c"])
        "o" "o" "next" none).status = SessionStatus.active →
      0 ≤ (collectStep (PaginatedSession.start (T := String)
          ["a", "b", "c"]) "o" "o" "next" none).index ∧
      (collectStep (PaginatedSession.start (T := String) ["a", "b", "c"])
          "o" "o" "next" none).index
        ≤ (((collectStep (PaginatedSession.start (T := String)
            ["a", "b", "c"]) "o" "o" "next" none).items.length : Int) - 1) ∧
      (collectStep (PaginatedSession.start (T := String) ["a", "b", "c"])
          "o" "o" "next" none).items ≠ []) :=
  ⟨rfl, ⟨by decide, by decide, by decide⟩,
    (paginatedEmbed_index_invariant
      (PaginatedSession.start (T := String) ["a", "b", "c"])
      "o" "o" "next" none rfl (by decide) (by decide) (by decide)).2.1⟩

/-- The handler of the `C3` counterexample: it reports the click handled and
requests an early stop, but supplies no replacement item list. -/
def stopRequestHandler : String → Int → List String → CustomButtonResult
    String :=
  fun _ _ _ => { handled := true, newItems := none, stopCollector := true }

/-- **C3 (counterexample).** The claim says a handled click requesting an
early stop ends the session.  With `stopCollector = true` but no replacement
item list, the code never reaches `this.stop()` (the check sits inside
`if (result.newItems)`), so the session stays active. -/
theorem collectStep_stop_without_newItems_ignored :
    (collectStep (PaginatedSession.start ["a"]) "o" "o" "archive"
      (some stopRequestHandler)).status = SessionStatus.active := rfl

/-- **C3 (amended).** When the owner's click is reported handled: if the
handler supplies a replacement item list and that list is empty or an early
stop is requested, the session ends; a stop request without a replacement
list is ignored — the state (index, items, liveness) is unchanged. -/
theorem collectStep_custom_stop_spec {T : Type} (s : PaginatedSession T)
    (ownerId action : String)
    (handler : String → Int → List T → CustomButtonResult T)
    (hAlive : s.status = SessionStatus.active)
    (hHandled : (handler action s.index s.items).handled = true) :
    (∀ l, (handler action s.index s.items).newItems = some l →
      (l = [] ∨ (handler action s.index s.items).stopCollector = true) →
      (collectStep s ownerId ownerId action (some handler)).status
        = SessionStatus.ended) ∧
    ((handler action s.index s.items).newItems = none →
      collectStep s ownerId ownerId action (some handler) = s) := by
  have hne_end : ¬ s.status = SessionStatus.ended := by
    rw [hAlive]; intro h; cases h
  have hclick : ¬ ownerId ≠ ownerId := fun h => h rfl
  constructor
  · intro l hl hstop
    simp only [collectStep, if_neg hne_end, if_neg hclick, hHandled,
      if_true, hl]
    rw [if_pos ?_]
    rcases hstop with h | h
    · exact Or.inl (by rw [h]; rfl)
    · exact Or.inr h
  · intro hni
    simp only [collectStep, if_neg hne_end, if_neg hclick, hHandled,
      if_true, hni]

/-- Witness for `collectStep_custom_stop_spec`: a handler replacing the list
with the empty list ends a concrete one-item session. -/
theorem collectStep_custom_stop_spec_witness :
    (PaginatedSession.start (T := String) ["a"]).status
        = SessionStatus.active ∧
    ((fun (_ : String) (_ : Int) (_ : List String) =>
        ({ handled := true, newItems := some [] } : CustomButtonResult
          String)) "clear" (PaginatedSession.start (T := String) ["a"]).index
        (PaginatedSession.start (T := String) ["a"]).items).handled = true ∧
    (collectStep (PaginatedSession.start (T := String) ["a"]) "o" "o"
        "clear"
        (some (fun _ _ _ =>
          ({ handled := true, newItems := some [] } : CustomButtonResult
            String)))).status = SessionStatus.ended :=
  ⟨rfl, rfl,
    (collectStep_custom_stop_spec (PaginatedSession.start ["a"]) "o" "clear"
      (fun _ _ _ => { handled := true, newItems := some [] }) rfl rfl).1
      [] rfl (Or.inl rfl)⟩

/-! ## Reply primitive (`src/utils/editAndReply.ts`,
`src/classes/InteractionError.class.ts`) -/

/-- The `reason` field of `InteractionError`. -/
inductive InteractionErrorReason
  | expired
  | failed
deriving DecidableEq

/-- `InteractionError` from `src/classes/InteractionError.class.ts`. -/
structure InteractionError where
  message : String
  interactionId : String
  reason : InteractionErrorReason
deriving DecidableEq

/-- The environment of one `safeReply` call: `Date.now()`, the interaction's
`createdTimestamp`, and whether the platform primitive (`reply`/`followUp`)
rejects, together with the rejection's message. -/
structure ReplyEnv where
  now : Int
  createdTimestamp : Int
  rejects : Option String
deriving DecidableEq

/-- `safeReply` from `src/utils/editAndReply.ts` for the interaction with id
`interactionId`: throw an `expired` `InteractionError` when the interaction
is older than three minutes — before any reply attempt (the `Bool` records
whether the platform primitive was invoked at all) — otherwise attempt the
reply and wrap a rejection in a `failed` `InteractionError`. -/
def safeReply (interactionId : String) (env : ReplyEnv) :
    Except InteractionError Unit × Bool :=
  if env.now - env.createdTimestamp > 3 * 60 * 1000 then
    (Except.error
      { message := "Interaction is older than 3 minutes"
        interactionId := interactionId
        reason := InteractionErrorReason.expired }, false)
  else
    match env.rejects with
    | some errMessage =>
      (Except.error
        { message := "Failed to reply to interaction: " ++ errMessage
          interactionId := interactionId
          reason := InteractionErrorReason.failed }, true)
    | none => (Except.ok (), true)

/-- **C9.** `safeReply` enforces the 3-minute reply window before a first
reply: past the window it throws the typed error with the interaction id
and reason `expired` without invoking the platform primitive; within the
window a rejected reply attempt throws the typed error with the interaction
id and reason `failed`. -/
theorem safeReply_spec (interactionId : String) (env : ReplyEnv) :
    (env.now - env.createdTimestamp > 3 * 60 * 1000 →
      safeReply interactionId env
        = (Except.error
            { message := "Interaction is older than 3 minutes"
              interactionId := interactionId
              reason := InteractionErrorReason.expired }, false)) ∧
    (env.now - env.createdTimestamp ≤ 3 * 60 * 1000 →
      ∀ errMessage, env.rejects = some errMessage →
      safeReply interactionId env
        = (Except.error
            { message := "Failed to reply to interaction: " ++ errMessage
              interactionId := interactionId
              reason := InteractionErrorReason.failed }, true)) := by
  constructor
  · intro h
    simp only [safeReply, if_pos h]
  · intro h errMessage hrej
    simp only [safeReply, if_neg (not_lt.mpr h), hrej]

/-- Witness for `safeReply_spec`: an interaction created at `0` is expired
at `now = 180001` and not replied to; at `now = 1000` a rejected attempt is
a `failed` error. -/
theorem safeReply_spec_witness :
    ((180001 : Int) - 0 > 3 * 60 * 1000 ∧
      safeReply "i1" { now := 180001, createdTimestamp := 0, rejects := none }
        = (Except.error
            { message := "Interaction is older than 3 minutes"
              interactionId := "i1"
              reason := InteractionErrorReason.expired }, false)) ∧
    ((1000 : Int) - 0 ≤ 3 * 60 * 1000 ∧
      safeReply "i2"
          { now := 1000
            createdTimestamp := 0
            rejects := some "Unknown interaction" }
        = (Except.error
            { message := "Failed to reply to interaction: Unknown interaction"
              interactionId := "i2"
              reason := InteractionErrorReason.failed }, true)) :=
  ⟨⟨by decide,
      (safeReply_spec "i1"
        { now := 180001, createdTimestamp := 0, rejects := none }).1
        (by decide)⟩,
    ⟨by decide,
      (safeReply_spec "i2"
        { now := 1000
          createdTimestamp := 0
          rejects := some "Unknown interaction" }).2 (by decide)
        "Unknown interaction" rfl⟩⟩

/-! ## Command execution wrapper (`src/classes/Command.class.ts`) -/

/-- The exceptions that can escape the closure `execute` hands to
`safeExecute`: an `InteractionError` thrown by the validation-failure
`safeReply`, or an arbitrary exception from the caller-supplied `run`. -/
inductive FnError
  | interaction (e : InteractionError)
  | handler (message : String)
deriving DecidableEq

/-- The closure `execute` passes to `safeExecute`: run `validate` (outcome
`validationError`), send the validation message via `safeReply` when
validation failed (that reply may itself throw), else await the
caller-supplied `run` (outcome `runResult`). -/
def commandFn (validationError : Option String)
    (runResult : Except String Unit) (validationReplyEnv : ReplyEnv)
    (interactionId : String) : Except FnError Unit :=
  match validationError with
  | some _ =>
    match (safeReply interactionId validationReplyEnv).1 with
    | Except.ok _ => Except.ok ()
    | Except.error e => Except.error (FnError.interaction e)
  | none =>
    match runResult with
    | Except.ok _ => Except.ok ()
    | Except.error message => Except.error (FnError.handler message)

/-- `Command.safeExecute`: try the closure, log success; on any exception
log it (with console mirroring) and
`return await safeReply(interaction, 'An unexpected error occurred.')` — an
`InteractionError` thrown by that reply escapes `safeExecute`.  The second
component is the content handed to the catch-path reply, when that path
ran. -/
def safeExecute (fnResult : Except FnError Unit) (catchReplyEnv : ReplyEnv)
    (interactionId : String) :
    Except InteractionError Unit × Option String :=
  match fnResult with
  | Except.ok _ => (Except.ok (), none)
  | Except.error _ =>
    ((safeReply interactionId catchReplyEnv).1,
      some "An unexpected error occurred.")

/-- `Command.execute`: `this.safeExecute(this.name, interaction, fn)` with
the closure `commandFn`. -/
def Command.execute (validationError : Option String)
    (runResult : Except String Unit)
    (validationReplyEnv catchReplyEnv : ReplyEnv) (interactionId : String) :
    Except InteractionError Unit × Option String :=
  safeExecute
    (commandFn validationError runResult validationReplyEnv interactionId)
    catchReplyEnv interactionId

/-- A reply environment in which the platform reply succeeds. -/
def okReplyEnv : ReplyEnv :=
  { now := 0, createdTimestamp := 0, rejects := none }

/-- A reply environment whose interaction is past the 3-minute window. -/
def expiredReplyEnv : ReplyEnv :=
  { now := 180001, createdTimestamp := 0, rejects := none }

/-- **C4 (counterexample).** The claim says no exception ever propagates
past `execute`.  When the `run` handler throws and the catch-path
`safeReply` then finds the interaction expired, the `InteractionError` the
reply throws escapes `execute`. -/
theorem execute_propagates_reply_error :
    (Command.execute none (Except.error "boom") okReplyEnv expiredReplyEnv
        "i1").1
      = Except.error
          { message := "Interaction is older than 3 minutes"
            interactionId := "i1"
            reason := InteractionErrorReason.expired } := rfl

/-- **C4 (amended).** Any exception thrown by the `run` handler is caught
inside `execute` and answered with the fixed generic message (never the
handler's own detail); whenever the catch-path reply succeeds (interaction
within the window, platform accepts), `execute` returns normally; the only
exception `execute` can propagate is the typed `InteractionError` of its
own failure-reply attempt. -/
theorem execute_spec (validationError : Option String)
    (runResult : Except String Unit)
    (validationReplyEnv catchReplyEnv : ReplyEnv) (interactionId : String) :
    (catchReplyEnv.now - catchReplyEnv.createdTimestamp ≤ 3 * 60 * 1000 →
      catchReplyEnv.rejects = none →
      (Command.execute validationError runResult validationReplyEnv
        catchReplyEnv interactionId).1 = Except.ok ()) ∧
    (validationError = none → ∀ message, runResult = Except.error message →
      (Command.execute validationError runResult validationReplyEnv
        catchReplyEnv interactionId).2
        = some "An unexpected error occurred.") ∧
    (∀ e, (Command.execute validationError runResult validationReplyEnv
        catchReplyEnv interactionId).1 = Except.error e →
      (safeReply interactionId catchReplyEnv).1 = Except.error e) := by
  have hok : (safeReply interactionId catchReplyEnv).1 = Except.ok () →
      True := fun _ => trivial
  refine ⟨?_, ?_, ?_⟩
  · intro hwin hrej
    have hreply : (safeReply interactionId catchReplyEnv).1
        = Except.ok () := by
      simp only [safeReply, if_neg (not_lt.mpr hwin), hrej]
    cases hfn : commandFn validationError runResult validationReplyEnv
        interactionId with
    | ok _ => simp only [Command.execute, safeExecute, hfn]
    | error e =>
      simp only [Command.execute, safeExecute, hfn]
      exact hreply
  · intro hval message hrun
    subst hval
    simp only [Command.execute, safeExecute, commandFn, hrun]
  · intro e he
    cases hfn : commandFn validationError runResult validationReplyEnv
        interactionId with
    | ok _ =>
      simp only [Command.execute, safeExecute, hfn] at he
      cases he
    | error e2 =>
      simp only [Command.execute, safeExecute, hfn] at he
      exact he

/-- Witness for `execute_spec`: a throwing handler with a healthy catch
reply — `execute` returns normally with a generic answer. -/
theorem execute_spec_witness :
    (okReplyEnv.now - okReplyEnv.createdTimestamp ≤ 3 * 60 * 1000 ∧
      okReplyEnv.rejects = none ∧
      (Command.execute none (Except.error "boom") okReplyEnv okReplyEnv
        "i1").1 = Except.ok ()) ∧
    ((Option.none : Option String) = none ∧
      (Except.error "boom" : Except String Unit) = Except.error "boom" ∧
      (Command.execute none (Except.error "boom") okReplyEnv okReplyEnv
        "i1").2 = some "An unexpected error occurred.") :=
  ⟨⟨by decide, rfl,
      (execute_spec none (Except.error "boom") okReplyEnv okReplyEnv
        "i1").1 (by decide) rfl⟩,
    ⟨rfl, rfl,
      (execute_spec none (Except.error "boom") okReplyEnv okReplyEnv
        "i1").2.1 rfl "boom" rfl⟩⟩

/-! ## Dispatch (`src/classes/CommandManager.class.ts`,
`src/classes/SubcommandGroup.class.ts`) -/

/-- `CommandManager.executeCommand`: look `commandName` up in the registry
map (`this.commands`), throw `Command not found` when absent — nothing in
this core catches it — else delegate to the entry's own `execute`, whose
behaviour is the oracle `exec`. -/
def CommandManager.executeCommand {E R : Type} (commands : JsMap E)
    (commandName : String) (exec : E → R) : Except String R :=
  match commands commandName with
  | none => Except.error ("Command not found: " ++ commandName)
  | some command => Except.ok (exec command)

/-- `SubcommandGroup.execute`: read the selected subcommand name, look it up
in the group's own `subcommands` map, throw `Unknown subcommand` when
absent — this happens before the `safeExecute` wrapper is entered, so the
error propagates — else run the child's `execute` (oracle `exec`) inside
the wrapper. -/
def SubcommandGroup.execute {E R : Type} (subcommands : JsMap E)
    (subcommandName : String) (exec : E → R) : Except String R :=
  match subcommands subcommandName with
  | none => Except.error ("Unknown subcommand: " ++ subcommandName)
  | some subcommand => Except.ok (exec subcommand)

/-- **C8.** Dispatching an unregistered command name, and dispatching a
subcommand name absent from a group's collection, each produce a not-found
error that reaches the caller of dispatch uncaught; when the entry exists,
dispatch delegates to that entry's execute.  The `admin`/`ban`/`kick`
scenario of the spec is included concretely. -/
theorem dispatch_not_found_spec :
    (∀ (E R : Type) (commands : JsMap E) (name : String) (exec : E → R),
      commands name = none →
      CommandManager.executeCommand commands name exec
        = Except.error ("Command not found: " ++ name)) ∧
    (∀ (E R : Type) (commands : JsMap E) (name : String) (exec : E → R)
      (c : E), commands name = some c →
      CommandManager.executeCommand commands name exec
        = Except.ok (exec c)) ∧
    (∀ (E R : Type) (subcommands : JsMap E) (name : String) (exec : E → R),
      subcommands name = none →
      SubcommandGroup.execute subcommands name exec
        = Except.error ("Unknown subcommand: " ++ name)) ∧
    (∀ (E R : Type) (subcommands : JsMap E) (name : String) (exec : E → R)
      (c : E), subcommands name = some c →
      SubcommandGroup.execute subcommands name exec = Except.ok (exec c)) ∧
    (SubcommandGroup.execute (JsMap.set JsMap.empty "ban" "banCommand")
      "kick" (fun c : String => c)
      = Except.error "Unknown subcommand: kick") := by
  refine ⟨?_, ?_, ?_, ?_, rfl⟩
  · intro E R commands name exec h
    simp only [CommandManager.executeCommand, h]
  · intro E R commands name exec c h
    simp only [CommandManager.executeCommand, h]
  · intro E R subcommands name exec h
    simp only [SubcommandGroup.execute, h]
  · intro E R subcommands name exec c h
    simp only [SubcommandGroup.execute, h]

/-- Witness for `dispatch_not_found_spec` at concrete registries. -/
theorem dispatch_not_found_spec_witness :
    (JsMap.empty (α := String) "ping" = none ∧
      CommandManager.executeCommand (JsMap.empty (α := String)) "ping"
        (fun c => c) = Except.error "Command not found: ping") ∧
    (JsMap.set JsMap.empty "ping" "pingCommand" "ping"
        = some "pingCommand" ∧
      CommandManager.executeCommand
        (JsMap.set JsMap.empty "ping" "pingCommand") "ping" (fun c => c)
        = Except.ok "pingCommand") ∧
    (JsMap.set JsMap.empty "ban" "banCommand" "kick" = none ∧
      SubcommandGroup.execute (JsMap.set JsMap.empty "ban" "banCommand")
        "kick" (fun c => c) = Except.error "Unknown subcommand: kick") ∧
    (JsMap.set JsMap.empty "ban" "banCommand" "ban" = some "banCommand" ∧
      SubcommandGroup.execute (JsMap.set JsMap.empty "ban" "banCommand")
        "ban" (fun c => c) = Except.ok "banCommand") :=
  ⟨⟨rfl,
      dispatch_not_found_spec.1 String String JsMap.empty "ping"
        (fun c => c) rfl⟩,
    ⟨by decide,
      dispatch_not_found_spec.2.1 String String
        (JsMap.set JsMap.empty "ping" "pingCommand") "ping" (fun c => c)
        "pingCommand" (by decide)⟩,
    ⟨by decide,
      dispatch_not_found_spec.2.2.1 String String
        (JsMap.set JsMap.empty "ban" "banCommand") "kick" (fun c => c)
        (by decide)⟩,
    ⟨by decide,
      dispatch_not_found_spec.2.2.2.1 String String
        (JsMap.set JsMap.empty "ban" "banCommand") "ban" (fun c => c)
        "banCommand" (by decide)⟩⟩

end TToolbox
